import Mathlib

/-!
Shallow embedding of the schema-aware dynamic query engine in `src/ui/app.py`
(PG Explorer). Pure logic fragments of the Python source are translated into
executable Lean definitions; external collaborators (the live database engine,
the `int`/`float`/`json` parsers of the Python runtime, CSV text formatting)
are modelled as explicit function parameters, since the source only consumes
their results. Machine-level concerns do not arise: all the embedded logic is
string and list manipulation.
-/

namespace PGExplorer

/-- Semantic column type tags, mirroring the classification helpers
`_is_text_type`, `_is_date_type`, `_is_int_type`, `_is_num_type`,
`_is_bool_type`, `_is_json_type`, `_is_binary_type` (app.py lines 370-395). -/
inductive SqlTy
  | text
  | date
  | intTy
  | num
  | boolTy
  | json
  | binary
  | other
  deriving DecidableEq

/-- Python truthiness of an optional string: `None` and `""` are falsy.
Used wherever the source writes `if x:` / `if not x:` on an optional string. -/
def optTruthy : Option String → Bool
  | none => false
  | some s => !(s == "")

/-- ASCII lowering of one character (the identifiers the source lowers are
store identifiers, which are ASCII). -/
def lowerChar (c : Char) : Char :=
  if 'A' ≤ c ∧ c ≤ 'Z' then Char.ofNat (c.toNat + 32) else c

/-- Python `s.lower()` on identifiers. -/
def strLower (s : String) : String := ⟨s.data.map lowerChar⟩

/-- Python `s.startswith(p)`. -/
def strStartsWith (s p : String) : Bool := p.data.isPrefixOf s.data

/-- Python `s.endswith(p)`. -/
def strEndsWith (s p : String) : Bool := p.data.isSuffixOf s.data

/-- Python `s[n:]`. -/
def strDrop (s : String) (n : Nat) : String := ⟨s.data.drop n⟩

/-- Python `s[:-n]` (for `n ≤ len(s)`). -/
def strDropRight (s : String) (n : Nat) : String := ⟨s.data.take (s.data.length - n)⟩

/-- Python `len(s)`. -/
def strLen (s : String) : Nat := s.data.length

/-- Python `c in s` for a single character. -/
def strContainsChar (s : String) (c : Char) : Bool := s.data.contains c

/-- Python `s.split(sep)[-1]` for a single-character separator: the suffix
after the last occurrence (the whole string when the separator is absent). -/
def afterLastUnderscore (s : String) : String :=
  ⟨(s.data.reverse.takeWhile (fun ch => !(ch == '_'))).reverse⟩

/-- Split a character list at the first occurrence of a character, when
present. -/
def breakAtChar (c : Char) : List Char → Option (List Char × List Char)
  | [] => none
  | x :: xs =>
    if x == c then some ([], xs)
    else (breakAtChar c xs).map (fun p => (x :: p.1, p.2))

/-- `parse_table` (app.py lines 213-218): split `schema.table` at the first
dot (Python `fullname.split(".", 1)`); an unqualified name defaults to
schema `public`. -/
def parse_table (fullname : String) : String × String :=
  match breakAtChar '.' fullname.data with
  | some p => (⟨p.1⟩, ⟨p.2⟩)
  | none => ("public", fullname)

/-- Route-level qualification `table_name if "." in table_name else
f"public.{table_name}"` used by the routes (e.g. app.py line 759). -/
def qualify_table (table_name : String) : String :=
  if strContainsChar table_name '.' then table_name else "public." ++ table_name

/-- The live store, as seen by the embedded logic: the table list returned by
`get_tables`, and per-table primary-key / reflected-column metadata
(`get_primary_key`, `table.c`). All descriptors are re-read per operation in
the source, so a plain snapshot is an adequate model. -/
structure Store where
  tables : List String
  pk : String → List String
  cols : String → List String

/- ------------------------------------------------------------------ -/
/- C1: procedure-call statement construction (`call_procedure`,
   app.py lines 643-662).                                              -/
/- ------------------------------------------------------------------ -/

/-- `call_procedure` (app.py lines 649-651): the CALL statement text. The
caller-supplied `proc_name` and the submitted form keys are interpolated
directly into the statement string; the source performs no allowlist lookup
before building it (only the form values are bound as parameters). -/
def call_procedure_stmt (proc_name : String) (param_keys : List String) : String :=
  "CALL " ++ proc_name ++ "(" ++
    String.intercalate ", " (param_keys.map (fun p => ":" ++ p)) ++ ")"

/- ------------------------------------------------------------------ -/
/- C2/C3: relationship resolution for procedure parameters
   (`guess_ref_table_for_param`, `PROCEDURE_PARAM_TABLE_OVERRIDES`,
   `enrich_procedures_with_options`, app.py lines 118-210).            -/
/- ------------------------------------------------------------------ -/

/-- The ordered directional-marker tuple of `guess_ref_table_for_param`
(app.py line 144). -/
def DIR_MARKERS : List String :=
  ["new_", "old_", "src_", "dst_", "from_", "to_", "target_", "source_",
   "current_", "prev_", "next_"]

/-- The stripping loop of app.py lines 144-147: walk the marker list in
order; on the first marker the base starts with, remove it and `break`. -/
def stripDirectional (base : String) : List String → String
  | [] => base
  | p :: ps =>
    if strStartsWith base p then strDrop base (strLen p) else stripDirectional base ps

/-- `_all_table_name_candidates` (app.py lines 118-134) as its ordered write
sequence: for each table, the direct base name then the singular/plural
variants. Python dict assignment overwrites, so a later write wins. -/
def candidates_writes (tables : List String) : List (String × String) :=
  tables.flatMap (fun full =>
    let base := strLower (parse_table full).2
    (base, full) ::
      (if strEndsWith base "ies" then [(strDropRight base 3 ++ "y", full)]
       else if strEndsWith base "s" && !(strEndsWith base "ss") then
         [(strDropRight base 1, full)]
       else [(base ++ "s", full), (base ++ "es", full)]))

/-- Lookup in the candidates dict: the value of the last write for a key
(Python dict semantics). -/
def dict_get (writes : List (String × String)) (k : String) : Option String :=
  (writes.reverse.find? (fun kv => kv.1 == k)).map (fun kv => kv.2)

/-- The inner `find_by_pk` of `guess_ref_table_for_param` (app.py lines
158-163): first table whose primary key is exactly one column literally named
`<key>_id` (case-insensitively). -/
def find_by_pk (st : Store) (key : String) : Option String :=
  st.tables.find? (fun full =>
    match st.pk full with
    | [p] => strLower p == key ++ "_id"
    | _ => false)

/-- `guess_ref_table_for_param` (app.py lines 137-172): heuristic resolution
of a referenced table from a `*_id` parameter name. -/
def guess_ref_table_for_param (st : Store) (param_name : String) : Option String :=
  if param_name == "" then none
  else
    let name := strLower param_name
    if strEndsWith name "_id" then
      let base := stripDirectional (strDropRight name 3) DIR_MARKERS
      let candidates := candidates_writes st.tables
      match dict_get candidates base with
      | some t => some t
      | none =>
        match
          (if strContainsChar base '_' then dict_get candidates (afterLastUnderscore base)
           else none) with
        | some t => some t
        | none =>
          match find_by_pk st base with
          | some t => some t
          | none =>
            match
              (if strContainsChar base '_' then find_by_pk st (afterLastUnderscore base)
               else none) with
            | some t => some t
            | none => dict_get candidates base
    else none

/-- `PROCEDURE_PARAM_TABLE_OVERRIDES` (app.py lines 176-182). -/
def PROCEDURE_PARAM_TABLE_OVERRIDES : List (String × List (String × String)) :=
  [("leader_transfer",
    [("new_leader_id", "public.young_people"),
     ("target_id", "public.projects")])]

/-- The nested dict lookup
`PROCEDURE_PARAM_TABLE_OVERRIDES.get(proc, {}).get(param)` (app.py line 193). -/
def override_lookup (ov : List (String × List (String × String)))
    (proc param : String) : Option String :=
  match ov.find? (fun e => e.1 == proc) with
  | some e => (e.2.find? (fun kv => kv.1 == param)).map (fun kv => kv.2)
  | none => none

/-- Reference resolution for one procedure parameter as performed by
`enrich_procedures_with_options` (app.py lines 192-195): the explicit
override first; the Python test `if not ref_full:` falls back to the
heuristic when the lookup misses or yields a falsy (empty) string. -/
def resolve_param_ref (st : Store) (proc param : String) : Option String :=
  match override_lookup PROCEDURE_PARAM_TABLE_OVERRIDES proc param with
  | some t => if t == "" then guess_ref_table_for_param st param else some t
  | none => guess_ref_table_for_param st param

/- ------------------------------------------------------------------ -/
/- C8: label column selection (`pick_label_column`, app.py 271-304).   -/
/- ------------------------------------------------------------------ -/

/-- A column as seen by `pick_label_column`: its name and semantic type. -/
structure MetaCol where
  name : String
  ty : SqlTy
  deriving DecidableEq

/-- The preference list of `pick_label_column` (app.py lines 278-287). -/
def PREFERRED_LABELS : List String :=
  ["name", "full_name", "title", "label", "display_name", "username",
   "email", "description"]

/-- The lowered names of the text-typed columns: the key set of the
`names_map` built at app.py line 290 (computed from `text_cols` only). -/
def text_label_names (cols : List MetaCol) : List String :=
  (cols.filter (fun c => c.ty == SqlTy.text)).map (fun c => strLower c.name)

/-- The preference loop of app.py lines 293-296: for each preferred name in
order, the first text column whose lowered name matches. -/
def findPreferred : List String → List MetaCol → Option String
  | [], _ => none
  | p :: ps, tcs =>
    match tcs.find? (fun c => strLower c.name == p) with
    | some c => some c.name
    | none => findPreferred ps tcs

/-- `pick_label_column` (app.py lines 271-304). The first/last-name composite
check consults `names_map`, which is built from the *text-typed* columns. -/
def pick_label_column (cols : List MetaCol) (pk_cols : List String) : String :=
  let text_cols := cols.filter (fun c => c.ty == SqlTy.text)
  if (text_label_names cols).contains "first_name" &&
     (text_label_names cols).contains "last_name" then
    "first_name last_name"
  else
    match findPreferred PREFERRED_LABELS text_cols with
    | some n => n
    | none =>
      match text_cols with
      | c :: _ => c.name
      | [] =>
        match pk_cols with
        | p :: _ => p
        | [] =>
          match cols with
          | c :: _ => c.name
          | [] => "id"

/- ------------------------------------------------------------------ -/
/- C10: insertable-column filtering (`build_insert_columns`,
   app.py lines 329-367).                                              -/
/- ------------------------------------------------------------------ -/

/-- Column metadata consumed by the skip tests of `build_insert_columns`:
presence in the reflected table (`table.c.get(name)`), the `is_pk` and
`autoincrement` flags, the textual server default and the identity marker. -/
structure InsColMeta where
  name : String
  in_table : Bool
  is_pk : Bool
  autoincrement : Bool
  default : Option String
  identity : Bool
  deriving DecidableEq

/-- The test `default is not None and str(default).lower().startswith("nextval(")`
(app.py lines 342-344). -/
def defaultIsNextval : Option String → Bool
  | none => false
  | some d => strStartsWith (strLower d) "nextval("

/-- The sequence of `continue` guards of `build_insert_columns` (app.py lines
337-349): a column is kept only when it exists in the reflected table, is not
a primary-key autoincrement column, has no `nextval(` default and carries no
identity marker. (The `getattr` around `identity` cannot raise for a
reflected column; the `except` arm is dead.) -/
def insert_col_visible (c : InsColMeta) : Bool :=
  c.in_table && !(c.is_pk && c.autoincrement) && !(defaultIsNextval c.default)
    && !c.identity

/-- The insertable-column set of `build_insert_columns` (membership only; the
foreign-key option enrichment of lines 350-365 decorates kept entries and
does not change which columns are kept). -/
def build_insert_columns (cols : List InsColMeta) : List InsColMeta :=
  cols.filter insert_col_visible

/- ------------------------------------------------------------------ -/
/- C4/C5: insert form coercion (`insert_post`, app.py lines 522-630).  -/
/- ------------------------------------------------------------------ -/

/-- Coerced column-typed values (`values[name]` in `insert_post`). Numeric,
json and binary payloads are carried as their parser output / source text:
their internal structure is irrelevant to the embedded control flow. -/
inductive Value
  | null
  | boolV (b : Bool)
  | intV (n : Int)
  | numV (s : String)
  | strV (s : String)
  | jsonV (s : String)
  | bytesV (s : String)
  deriving DecidableEq

/-- The Python runtime parsers invoked by `insert_post`: `int(raw)`,
`float(raw)` and `json.loads(raw)`, each raising (here: `none`) on a value it
cannot parse. They are external collaborators, so they are parameters of the
model. -/
structure Parsers where
  parseInt : String → Option Int
  parseNum : String → Option String
  parseJson : String → Option String

/-- Outcome for a single form field inside the coercion loop. -/
inductive FieldStep
  | omitted
  | val (v : Value)
  | err (msg : String)
  deriving DecidableEq

/-- The blank test `raw is None or raw == ""` of app.py lines 535-537. -/
def isBlank : Option String → Bool
  | none => true
  | some s => s == ""

/-- The non-blank coercion dispatch of app.py lines 544-561, per semantic
type. Failures of the int/float/json parsers are recorded as the field error
(the Python message embeds the exception text; the model uses a fixed
marker). -/
def coerce_value (P : Parsers) (ty : SqlTy) (raw : String) : FieldStep :=
  match ty with
  | SqlTy.intTy =>
    match P.parseInt raw with
    | some n => FieldStep.val (Value.intV n)
    | none => FieldStep.err "Invalid value"
  | SqlTy.num =>
    match P.parseNum raw with
    | some s => FieldStep.val (Value.numV s)
    | none => FieldStep.err "Invalid value"
  | SqlTy.boolTy =>
    FieldStep.val (Value.boolV (raw == "on" || raw == "true" || raw == "1" || raw == "True"))
  | SqlTy.date => FieldStep.val (Value.strV raw)
  | SqlTy.json =>
    match P.parseJson raw with
    | some s => FieldStep.val (Value.jsonV s)
    | none => FieldStep.err "Invalid value"
  | SqlTy.binary => FieldStep.val (Value.bytesV raw)
  | SqlTy.text => FieldStep.val (Value.strV raw)
  | SqlTy.other => FieldStep.val (Value.strV raw)

/-- One iteration of the coercion loop of `insert_post` (app.py lines
531-561) for a column: a blank primary-key field is skipped (`continue`
without assignment); a blank boolean becomes `False`; any other blank becomes
`None`; otherwise the typed coercion runs. -/
def coerce_field (P : Parsers) (isPk : Bool) (ty : SqlTy) (raw : Option String) :
    FieldStep :=
  if isPk && isBlank raw then FieldStep.omitted
  else if isBlank raw then
    if ty == SqlTy.boolTy then FieldStep.val (Value.boolV false)
    else FieldStep.val Value.null
  else coerce_value P ty (raw.getD "")

/-- `form.get(name)` on the submitted form, modelled as an association list. -/
def formGet (form : List (String × String)) (name : String) : Option String :=
  (form.find? (fun kv => kv.1 == name)).map (fun kv => kv.2)

/-- The full coercion loop of `insert_post` over the table's columns:
accumulates the `values` dict and the `errors` dict in column order. -/
def coerce_form (P : Parsers) (pks : List String) (form : List (String × String)) :
    List (String × SqlTy) → List (String × Value) × List (String × String)
  | [] => ([], [])
  | (name, ty) :: rest =>
    let step := coerce_field P (pks.contains name) ty (formGet form name)
    let acc := coerce_form P pks form rest
    match step with
    | FieldStep.omitted => acc
    | FieldStep.val v => ((name, v) :: acc.1, acc.2)
    | FieldStep.err m => (acc.1, (name, m) :: acc.2)

/-- The per-column contribution to the `values` dict, read off a single
field in isolation. -/
def fieldVal (P : Parsers) (pks : List String) (form : List (String × String))
    (c : String × SqlTy) : Option (String × Value) :=
  match coerce_field P (pks.contains c.1) c.2 (formGet form c.1) with
  | FieldStep.val v => some (c.1, v)
  | _ => none

/-- The per-column contribution to the `errors` dict, read off a single
field in isolation. -/
def fieldErr (P : Parsers) (pks : List String) (form : List (String × String))
    (c : String × SqlTy) : Option (String × String) :=
  match coerce_field P (pks.contains c.1) c.2 (formGet form c.1) with
  | FieldStep.err m => some (c.1, m)
  | _ => none

/-- The observable outcome of the coercion phase of `insert_post`: either
the submission is rejected (re-rendered with the error map and
`prev=dict(form)`, app.py lines 563-566 — the insert statement is never
built) or the coerced value set proceeds to execution (app.py lines
568-572). -/
inductive InsertOutcome
  | rejected (errors : List (String × String)) (prev : List (String × String))
  | executed (values : List (String × Value))
  deriving DecidableEq

/-- `insert_post` up to the insert execution (app.py lines 529-572): run the
coercion loop; `if errors:` re-render with the field errors and the echoed
form, else execute the insert with the coerced values. -/
def insert_post_model (P : Parsers) (pks : List String)
    (form : List (String × String)) (cols : List (String × SqlTy)) : InsertOutcome :=
  let acc := coerce_form P pks form cols
  if acc.2.isEmpty then InsertOutcome.executed acc.1
  else InsertOutcome.rejected acc.2 form

/- ------------------------------------------------------------------ -/
/- C6: constraint-violation mapping (`insert_post` error branch,
   app.py lines 573-620).                                              -/
/- ------------------------------------------------------------------ -/

/-- The readable-message construction of app.py lines 586-591:
`msg = primary or str(e)`, then append detail and hint when truthy. -/
def build_err_msg (e_str : String) (primary detail hint : Option String) : String :=
  let m0 := if optTruthy primary then primary.getD "" else e_str
  let m1 := if optTruthy detail then m0 ++ " — " ++ detail.getD "" else m0
  if optTruthy hint then m1 ++ " (hint: " ++ hint.getD "" ++ ")" else m1

/-- The `f' ({cons})' if cons else ''` fragment of app.py lines 596-603. -/
def consSuffix (cons : Option String) : String :=
  if optTruthy cons then " (" ++ cons.getD "" ++ ")" else ""

/-- The constraint-violation classification of app.py lines 592-620, keyed by
SQLSTATE. Produces the `err_map` written back to the form: each branch writes
exactly one entry, field-scoped (keyed by the diagnostic's column) or global
(keyed `"_global"`). `isIntegrity`/`isData` model the
`isinstance(e, IntegrityError)` / `isinstance(e, DataError)` tests. -/
def map_constraint_error (isIntegrity isData : Bool) (sqlstate : Option String)
    (col cons primary detail hint : Option String) (e_str : String) :
    List (String × String) :=
  let msg := build_err_msg e_str primary detail hint
  if isIntegrity || isData || optTruthy sqlstate then
    if sqlstate == some "23502" && optTruthy col then
      [(col.getD "", "Required (NOT NULL).")]
    else if sqlstate == some "23505" then
      [("_global", "Unique constraint violated" ++ consSuffix cons ++ ". " ++ msg)]
    else if sqlstate == some "23503" then
      if optTruthy col then [(col.getD "", "Invalid reference (foreign key).")]
      else [("_global", "Foreign key constraint violated" ++ consSuffix cons ++ ". " ++ msg)]
    else if sqlstate == some "23514" then
      [("_global", "Check constraint violated" ++ consSuffix cons ++ ". " ++ msg)]
    else if sqlstate == some "22001" then
      if optTruthy col then [(col.getD "", "Value too long for this column.")]
      else [("_global", msg)]
    else if sqlstate == some "22003" then
      if optTruthy col then [(col.getD "", "Numeric value out of range.")]
      else [("_global", msg)]
    else if optTruthy col then [(col.getD "", msg)]
    else [("_global", msg)]
  else [("_global", e_str)]

/- ------------------------------------------------------------------ -/
/- C7: change polling (`select_new_rows_after_pk`, `api_new_rows`,
   app.py lines 463-478 and 757-769).                                  -/
/- ------------------------------------------------------------------ -/

/-- A result row, as the source materialises it (`dict(r)`). -/
abbrev Row := List (String × String)

/-- `select_new_rows_after_pk` (app.py lines 463-478): refuse (empty list)
unless the primary key is exactly one column that exists in the reflected
table; otherwise run the ascending, capped fetch. The fetch itself is the
store's parameterized select, modelled as a function of the primary-key
column, the cursor value and the row cap. -/
def select_new_rows_after_pk (st : Store) (fetch : String → Int → Nat → List Row)
    (fullname : String) (last_pk : Int) (max_rows : Nat) : List Row :=
  match st.pk fullname with
  | [pk_name] =>
    if (st.cols fullname).contains pk_name then fetch pk_name last_pk max_rows
    else []
  | _ => []

/-- The three response shapes of the `api_new_rows` route (app.py lines
757-769). -/
inductive ApiNewRowsResult
  | unsupported (msg : String)
  | needCursor (msg : String)
  | ok (pk : String) (rows : List Row)
  deriving DecidableEq

/-- `api_new_rows` (app.py lines 757-769): qualify the table name; a primary
key that is not exactly one column yields the explicit unsupported message
with no rows, before any fetch; a missing cursor yields the cursor prompt;
otherwise the incremental select runs. -/
def api_new_rows (st : Store) (fetch : String → Int → Nat → List Row)
    (table_name : String) (after_pk : Option Int) (max_rows : Nat) :
    ApiNewRowsResult :=
  let fullname := qualify_table table_name
  let pk_cols := st.pk fullname
  if pk_cols.length ≠ 1 then
    ApiNewRowsResult.unsupported "Watching requires a single-column primary key."
  else
    match after_pk with
    | none => ApiNewRowsResult.needCursor "Provide after_pk to watch for new rows."
    | some a =>
      ApiNewRowsResult.ok (pk_cols.headD "")
        (select_new_rows_after_pk st fetch fullname a max_rows)

/- ------------------------------------------------------------------ -/
/- C9: streaming CSV export (`export_csv`'s `row_iter`,
   app.py lines 798-816).                                              -/
/- ------------------------------------------------------------------ -/

/-- The `row_iter` generator of `export_csv` (app.py lines 798-816): the
`writer` starts out absent; on the first row it is created with that row's
keys as fieldnames and the header chunk is yielded, then every row yields its
formatted chunk. Header and row formatting are the CSV library's, modelled as
function parameters over the fieldnames. The state argument is the created
writer's fieldnames (absent until the first row). -/
def row_iter_chunks (hdr : List String → String) (fmt : List String → Row → String) :
    Option (List String) → List Row → List String
  | _, [] => []
  | none, r :: rs =>
    hdr (r.map Prod.fst) :: fmt (r.map Prod.fst) r ::
      row_iter_chunks hdr fmt (some (r.map Prod.fst)) rs
  | some fs, r :: rs => fmt fs r :: row_iter_chunks hdr fmt (some fs) rs

/-- The full chunk sequence streamed by `export_csv` for a given result set. -/
def export_csv_chunks (hdr : List String → String) (fmt : List String → Row → String)
    (rows : List Row) : List String :=
  row_iter_chunks hdr fmt none rows

/- ------------------------------------------------------------------ -/
/- Concrete data for witnesses and counterexamples.                    -/
/- ------------------------------------------------------------------ -/

/-- A store on which the naming heuristic succeeds for `new_leader_id`
(table `public.leaders`, singularised to `leader`). -/
def ST0 : Store :=
  ⟨["public.leaders"], fun _ => ["id"], fun _ => ["id"]⟩

/-- A store whose tables all have a two-column primary key. -/
def ST2 : Store :=
  ⟨["public.t"], fun _ => ["a", "b"], fun _ => ["a", "b"]⟩

/-- A fetch that would return a row, to show it is never consulted. -/
def FETCH2 : String → Int → Nat → List Row :=
  fun _ _ _ => [[("a", "1")]]

/-- Decimal digits of a non-empty character list. -/
def digitsToNat : List Char → Option Nat
  | [] => none
  | l =>
    l.foldl
      (fun acc c =>
        match acc with
        | none => none
        | some n => if c.isDigit then some (n * 10 + (c.toNat - 48)) else none)
      (some 0)

/-- A concrete integer parser (optional sign, decimal digits) standing in
for the Python `int` built-in in the witnesses. -/
def pyParseInt (s : String) : Option Int :=
  match s.data with
  | '-' :: rest => (digitsToNat rest).map (fun n => -(n : Int))
  | '+' :: rest => (digitsToNat rest).map (fun n => (n : Int))
  | l => (digitsToNat l).map (fun n => (n : Int))

/-- Concrete parsers for the witnesses: the integer parser above; the float
and json parsers accept everything (their successes are immaterial to the
witnesses, parse failure is exercised through `parseInt`). -/
def P0 : Parsers :=
  ⟨pyParseInt, fun s => some s, fun s => some s⟩

/-- A submitted form with one unparseable and one parseable integer field. -/
def FORM1 : List (String × String) := [("a", "xx"), ("b", "5")]

/-- The columns of the table receiving `FORM1`. -/
def COLS1 : List (String × SqlTy) := [("a", SqlTy.intTy), ("b", SqlTy.intTy)]

/-- A table having a non-text `first_name` column, a text `last_name` column
and a text column literally named `name`. -/
def C8_CEX : List MetaCol :=
  [⟨"first_name", SqlTy.intTy⟩, ⟨"last_name", SqlTy.text⟩, ⟨"name", SqlTy.text⟩]

/-- A table with text `first_name`/`last_name` and a text `name` column. -/
def C8_OK : List MetaCol :=
  [⟨"name", SqlTy.text⟩, ⟨"first_name", SqlTy.text⟩, ⟨"last_name", SqlTy.text⟩]

/-- A non-primary-key column with a sequence default. -/
def COL_SEQ : InsColMeta := ⟨"seqcol", true, false, false, some "NEXTVAL(s_seq)", false⟩

/-- A non-primary-key identity column. -/
def COL_GEN : InsColMeta := ⟨"gencol", true, false, false, none, true⟩

/-- A primary-key autoincrement column with neither a `nextval(` default nor
an identity marker. -/
def COL_PKAUTO : InsColMeta := ⟨"id", true, true, true, none, false⟩

/-- An ordinary insertable column. -/
def COL_PLAIN : InsColMeta := ⟨"name", true, false, false, none, false⟩

/-- The column list exercising the insert-column filter. -/
def C10_COLS : List InsColMeta := [COL_PKAUTO, COL_SEQ, COL_GEN, COL_PLAIN]

/- ================================================================== -/
/- Theorems.                                                           -/
/- ================================================================== -/

/-- Claim C1 (code bug): the procedure-call route builds the CALL statement
by interpolating the caller-supplied procedure name directly; no allowlist of
known procedure names is consulted and no parameter count is checked, so a
name that is not a known procedure still reaches the statement text
verbatim. -/
theorem c1_unvalidated_name_interpolated :
    call_procedure_stmt "not_a_known_procedure" ["x"] =
      "CALL not_a_known_procedure(:x)" := by decide

/-- Every value stored in the concrete override table is a non-empty table
name, so the Python truthiness fallback of `enrich_procedures_with_options`
never re-enters the heuristic for a present override. -/
theorem override_lookup_values (proc param t : String)
    (h : override_lookup PROCEDURE_PARAM_TABLE_OVERRIDES proc param = some t) :
    t = "public.young_people" ∨ t = "public.projects" := by
  unfold override_lookup at h
  cases hov : PROCEDURE_PARAM_TABLE_OVERRIDES.find? (fun e => e.1 == proc) with
  | none => rw [hov] at h; cases h
  | some e =>
    rw [hov] at h
    have h' : Option.map (fun kv => kv.2)
        (List.find? (fun kv => kv.1 == param) e.2) = some t := h
    have he : e ∈ PROCEDURE_PARAM_TABLE_OVERRIDES := List.mem_of_find?_eq_some hov
    simp only [PROCEDURE_PARAM_TABLE_OVERRIDES, List.mem_singleton] at he
    subst he
    cases hkv : (List.find?
        (fun kv => kv.1 == param)
        [("new_leader_id", "public.young_people"), ("target_id", "public.projects")]) with
    | none => rw [hkv] at h'; simp at h'
    | some kv =>
      rw [hkv] at h'
      simp only [Option.map_some', Option.some.injEq] at h'
      have hm := List.mem_of_find?_eq_some hkv
      simp only [List.mem_cons, List.mem_singleton, List.not_mem_nil, or_false] at hm
      rcases hm with rfl | rfl
      · left; exact h'.symm
      · right; exact h'.symm

/-- Claim C2: for every (procedure, parameter) pair present in the explicit
override table, `enrich_procedures_with_options` resolves to the override's
table; the heuristic `guess_ref_table_for_param` is never consulted, which
the statement expresses by holding over every store — and hence over every
value the heuristic could compute, including a successful one. -/
theorem c2_override_wins (st : Store) (proc param t : String)
    (h : override_lookup PROCEDURE_PARAM_TABLE_OVERRIDES proc param = some t) :
    resolve_param_ref st proc param = some t := by
  have ht : (t == "") = false := by
    rcases override_lookup_values proc param t h with h' | h' <;> subst h' <;> decide
  unfold resolve_param_ref
  rw [h]
  simp [ht]

/-- Witness for C2: the pair `("leader_transfer", "new_leader_id")` is in the
override table; on a store where the heuristic would also succeed (it infers
`public.leaders`), resolution still returns the override `public.young_people`. -/
theorem c2_witness :
    resolve_param_ref ST0 "leader_transfer" "new_leader_id" =
      some "public.young_people" ∧
    guess_ref_table_for_param ST0 "new_leader_id" = some "public.leaders" :=
  ⟨c2_override_wins ST0 "leader_transfer" "new_leader_id" "public.young_people"
    (by decide), by decide⟩

/-- The stripping loop visits the marker list in order and removes exactly
the first marker the base starts with, or nothing. -/
theorem stripDirectional_eq_find (base : String) (l : List String) :
    stripDirectional base l =
      match l.find? (fun p => strStartsWith base p) with
      | some p => strDrop base (strLen p)
      | none => base := by
  induction l with
  | nil => rfl
  | cons p ps ih =>
    by_cases hp : strStartsWith base p = true
    · rw [List.find?_cons_of_pos _ hp]
      simp [stripDirectional, hp]
    · have hp' : strStartsWith base p = false := by
        cases hsp : strStartsWith base p
        · rfl
        · exact absurd hsp hp
      rw [List.find?_cons_of_neg _ (by simp [hp'])]
      simp [stripDirectional, hp', ih]

/-- Claim C3: for a parameter name ending in `_id`, after the suffix is
stripped the resolver removes at most one leading directional marker: when
some marker in `DIR_MARKERS` matches, the result is the base minus exactly
the first matching marker in list order (so no second marker is removed,
even if the remainder begins with another listed marker); when none matches,
the base is unchanged. -/
theorem c3_at_most_one_marker (name : String)
    (_h : strEndsWith (strLower name) "_id" = true) :
    (∃ p, DIR_MARKERS.find?
        (fun q => strStartsWith (strDropRight (strLower name) 3) q) = some p ∧
      stripDirectional (strDropRight (strLower name) 3) DIR_MARKERS =
        strDrop (strDropRight (strLower name) 3) (strLen p)) ∨
    (DIR_MARKERS.find?
        (fun q => strStartsWith (strDropRight (strLower name) 3) q) = none ∧
      stripDirectional (strDropRight (strLower name) 3) DIR_MARKERS =
        strDropRight (strLower name) 3) := by
  cases hf : DIR_MARKERS.find?
      (fun q => strStartsWith (strDropRight (strLower name) 3) q) with
  | some p =>
    exact Or.inl ⟨p, rfl, by rw [stripDirectional_eq_find, hf]⟩
  | none =>
    exact Or.inr ⟨rfl, by rw [stripDirectional_eq_find, hf]⟩

/-- Witness for C3 at `new_src_leader_id`: only `new_` is removed although
the remainder `src_leader` itself begins with the listed marker `src_`. -/
theorem c3_witness :
    strEndsWith (strLower "new_src_leader_id") "_id" = true ∧
    ((∃ p, DIR_MARKERS.find?
        (fun q => strStartsWith (strDropRight (strLower "new_src_leader_id") 3) q) =
          some p ∧
      stripDirectional (strDropRight (strLower "new_src_leader_id") 3) DIR_MARKERS =
        strDrop (strDropRight (strLower "new_src_leader_id") 3) (strLen p)) ∨
    (DIR_MARKERS.find?
        (fun q => strStartsWith (strDropRight (strLower "new_src_leader_id") 3) q) =
          none ∧
      stripDirectional (strDropRight (strLower "new_src_leader_id") 3) DIR_MARKERS =
        strDropRight (strLower "new_src_leader_id") 3)) ∧
    stripDirectional "new_src_leader" DIR_MARKERS = "src_leader" ∧
    strStartsWith "src_leader" "src_" = true :=
  ⟨by decide, c3_at_most_one_marker "new_src_leader_id" (by decide),
   by decide, by decide⟩

/-- Claim C4: a blank or absent raw value coerces to the omitted outcome on
a primary-key column (and the column then contributes no entry to the value
set), to `False` on a non-primary-key boolean column, and to an explicit
null on every other non-primary-key column. -/
theorem c4_blank_field_coercion (P : Parsers) (ty : SqlTy) (raw : Option String)
    (hb : isBlank raw = true) :
    coerce_field P true ty raw = FieldStep.omitted ∧
    (ty = SqlTy.boolTy →
      coerce_field P false ty raw = FieldStep.val (Value.boolV false)) ∧
    (ty ≠ SqlTy.boolTy → coerce_field P false ty raw = FieldStep.val Value.null) ∧
    (∀ (pks : List String) (form : List (String × String)) (name : String)
        (rest : List (String × SqlTy)),
      pks.contains name = true → isBlank (formGet form name) = true →
      coerce_form P pks form ((name, ty) :: rest) = coerce_form P pks form rest) := by
  refine ⟨?_, ?_, ?_, ?_⟩
  · simp [coerce_field, hb]
  · intro h
    subst h
    simp [coerce_field, hb]
  · intro h
    have h' : (ty == SqlTy.boolTy) = false := by
      cases hty : ty == SqlTy.boolTy
      · rfl
      · exact absurd (by exact eq_of_beq hty) h
    simp [coerce_field, hb, h']
  · intro pks form name rest h1 h2
    have hcf : coerce_field P (pks.contains name) ty (formGet form name) =
        FieldStep.omitted := by
      rw [h1]
      simp [coerce_field, h2]
    simp only [coerce_form, hcf]

/-- Witness for C4: with concrete parsers, a blank primary-key integer field
is omitted, a blank non-primary-key boolean is `False`, an absent
non-primary-key integer is null, and a blank primary-key column contributes
nothing to the accumulated value set. -/
theorem c4_witness :
    coerce_field P0 true SqlTy.intTy (some "") = FieldStep.omitted ∧
    coerce_field P0 false SqlTy.boolTy (some "") =
      FieldStep.val (Value.boolV false) ∧
    coerce_field P0 false SqlTy.intTy none = FieldStep.val Value.null ∧
    coerce_form P0 ["id"] [] [("id", SqlTy.intTy), ("b", SqlTy.intTy)] =
      coerce_form P0 ["id"] [] [("b", SqlTy.intTy)] :=
  ⟨(c4_blank_field_coercion P0 SqlTy.intTy (some "") (by decide)).1,
   (c4_blank_field_coercion P0 SqlTy.boolTy (some "") (by decide)).2.1 rfl,
   (c4_blank_field_coercion P0 SqlTy.intTy none (by decide)).2.2.1 (by decide),
   (c4_blank_field_coercion P0 SqlTy.intTy (some "") (by decide)).2.2.2
     ["id"] [] "id" [("b", SqlTy.intTy)] (by decide) (by decide)⟩

/-- The coercion loop treats every column independently: the accumulated
value and error dicts are the per-column contributions, each computed from
that column's own raw value alone. -/
theorem coerce_form_eq_filterMap (P : Parsers) (pks : List String)
    (form : List (String × String)) (cols : List (String × SqlTy)) :
    coerce_form P pks form cols =
      (cols.filterMap (fieldVal P pks form), cols.filterMap (fieldErr P pks form)) := by
  induction cols with
  | nil => rfl
  | cons c rest ih =>
    obtain ⟨nm, ty⟩ := c
    simp only [coerce_form, List.filterMap_cons, fieldVal, fieldErr, ih]
    cases hc : coerce_field P (pks.contains nm) ty (formGet form nm) <;> simp

/-- Claim C5: every submitted field is attempted regardless of earlier
failures — the error map and the value set are per-field contributions, so a
parse failure on one field is recorded against that field's name and leaves
every other field's coercion unchanged; and whenever at least one field
failed, the submission is rejected with the error map and the original form,
without reaching the insert execution. -/
theorem c5_independent_fields_and_reject (P : Parsers) (pks : List String)
    (form : List (String × String)) (cols : List (String × SqlTy)) :
    coerce_form P pks form cols =
      (cols.filterMap (fieldVal P pks form), cols.filterMap (fieldErr P pks form)) ∧
    (cols.filterMap (fieldErr P pks form) ≠ [] →
      insert_post_model P pks form cols =
        InsertOutcome.rejected (cols.filterMap (fieldErr P pks form)) form) := by
  refine ⟨coerce_form_eq_filterMap P pks form cols, fun hne => ?_⟩
  have hempty : (cols.filterMap (fieldErr P pks form)).isEmpty = false := by
    cases hl : cols.filterMap (fieldErr P pks form) with
    | nil => exact absurd hl hne
    | cons a t => rfl
  unfold insert_post_model
  rw [coerce_form_eq_filterMap P pks form cols]
  simp [hempty]

/-- Witness for C5: form `FORM1` has an unparseable integer in field `a` and
a parseable one in field `b`; the error map records `a`, the value set still
contains the coerced `b`, and the outcome is the rejection echoing `FORM1`. -/
theorem c5_witness :
    COLS1.filterMap (fieldErr P0 [] FORM1) ≠ [] ∧
    insert_post_model P0 [] FORM1 COLS1 =
      InsertOutcome.rejected [("a", "Invalid value")] FORM1 ∧
    COLS1.filterMap (fieldVal P0 [] FORM1) = [("b", Value.intV 5)] := by
  refine ⟨by decide, ?_, by decide⟩
  have h := (c5_independent_fields_and_reject P0 [] FORM1 COLS1).2 (by decide)
  rw [h]
  decide

/-- Claim C6: a unique violation (SQLSTATE 23505) always maps to a single
global-scoped entry naming the constraint when known — never a field-scoped
entry, whatever column the diagnostic names. -/
theorem c6_unique_violation_global (isIntegrity isData : Bool)
    (col cons primary detail hint : Option String) (e_str : String) :
    map_constraint_error isIntegrity isData (some "23505") col cons primary
        detail hint e_str =
      [("_global", "Unique constraint violated" ++ consSuffix cons ++ ". " ++
        build_err_msg e_str primary detail hint)] := by
  cases isIntegrity <;> cases isData <;> rfl

/-- Claim C7: when the table's primary key is not exactly one column, the
change-polling route returns the explicit unsupported message carrying no
rows — for every possible store fetch, so no row fetch (partial or
otherwise) can influence the outcome — and the underlying incremental select
returns no rows for any cursor value; both are total functions, so no error
is raised. -/
theorem c7_non_single_pk_unsupported (st : Store)
    (fetch : String → Int → Nat → List Row) (table_name : String)
    (after_pk : Option Int) (max_rows : Nat)
    (h : (st.pk (qualify_table table_name)).length ≠ 1) :
    api_new_rows st fetch table_name after_pk max_rows =
      ApiNewRowsResult.unsupported "Watching requires a single-column primary key." ∧
    ∀ last_pk : Int,
      select_new_rows_after_pk st fetch (qualify_table table_name) last_pk max_rows
        = [] := by
  constructor
  · unfold api_new_rows
    simp [h]
  · intro last_pk
    unfold select_new_rows_after_pk
    cases hpk : st.pk (qualify_table table_name) with
    | nil => rfl
    | cons a t =>
      cases t with
      | nil => exact absurd (by rw [hpk]; rfl) h
      | cons b t2 => rfl

/-- Witness for C7: a store whose table has the two-column primary key
`(a, b)` and a fetch that would return a row; the route still answers
unsupported with no rows and the incremental select is empty. -/
theorem c7_witness :
    api_new_rows ST2 FETCH2 "t" (some 5) 50 =
      ApiNewRowsResult.unsupported "Watching requires a single-column primary key." ∧
    select_new_rows_after_pk ST2 FETCH2 (qualify_table "t") 5 50 = [] ∧
    FETCH2 "a" 5 50 ≠ [] := by
  have h := c7_non_single_pk_unsupported ST2 FETCH2 "t" (some 5) 50 (by decide)
  exact ⟨h.1, h.2 5, by decide⟩

/-- Claim C8 counterexample: a table holding both a `first_name` column and a
`last_name` column — but with `first_name` integer-typed — does not get the
composite label; the picker falls through to the preferred name `name`. The
composite check of `pick_label_column` consults only text-typed columns. -/
theorem c8_counterexample :
    (C8_CEX.map MetaCol.name).contains "first_name" = true ∧
    (C8_CEX.map MetaCol.name).contains "last_name" = true ∧
    pick_label_column C8_CEX [] = "name" ∧
    ¬ pick_label_column C8_CEX [] = "first_name last_name" := by decide

/-- Claim C8 as amended: for every table with both `first_name` and
`last_name` among its text-typed columns, the picker returns the composite
marker, taking precedence over every other rule — including a column
literally named `name`. -/
theorem c8_text_first_last_composite (cols : List MetaCol) (pks : List String)
    (h1 : (text_label_names cols).contains "first_name" = true)
    (h2 : (text_label_names cols).contains "last_name" = true) :
    pick_label_column cols pks = "first_name last_name" := by
  unfold pick_label_column
  rw [h1, h2]
  rfl

/-- Witness for the amended C8: text `first_name`/`last_name` columns beat a
text column literally named `name`. -/
theorem c8_witness :
    pick_label_column C8_OK ["id"] = "first_name last_name" :=
  c8_text_first_last_composite C8_OK ["id"] (by decide) (by decide)

/-- Once the writer exists, every further row yields exactly its formatted
chunk. -/
theorem row_iter_chunks_some (hdr : List String → String)
    (fmt : List String → Row → String) (fs : List String) (rs : List Row) :
    row_iter_chunks hdr fmt (some fs) rs = rs.map (fmt fs) := by
  induction rs with
  | nil => rfl
  | cons r rest ih => simp [row_iter_chunks, ih]

/-- Claim C9: an export whose filtered result set is empty emits no chunks at
all — no header or preamble; the header chunk is emitted exactly upon
observing the first result row, followed by the per-row chunks. -/
theorem c9_empty_export_no_bytes (hdr : List String → String)
    (fmt : List String → Row → String) :
    export_csv_chunks hdr fmt [] = [] ∧
    ∀ (r : Row) (rs : List Row),
      export_csv_chunks hdr fmt (r :: rs) =
        hdr (r.map Prod.fst) :: fmt (r.map Prod.fst) r ::
          rs.map (fmt (r.map Prod.fst)) := by
  refine ⟨rfl, fun r rs => ?_⟩
  unfold export_csv_chunks
  simp [row_iter_chunks, row_iter_chunks_some]

/-- Claim C10: the insertable-column set excludes every column whose server
default begins with `nextval(` and every column with an identity marker,
whatever its primary-key flag (the statement holds for an arbitrary column,
primary-key or not); the primary-key-and-autoincrement test is a separate,
additional exclusion that fires even without a generated default. -/
theorem c10_generated_defaults_excluded (cols : List InsColMeta)
    (c : InsColMeta) (_hmem : c ∈ cols) :
    (defaultIsNextval c.default = true → c ∉ build_insert_columns cols) ∧
    (c.identity = true → c ∉ build_insert_columns cols) ∧
    (c.is_pk = true → c.autoincrement = true → c ∉ build_insert_columns cols) := by
  have key : insert_col_visible c = false → c ∉ build_insert_columns cols := by
    intro hv hin
    rw [build_insert_columns, List.mem_filter] at hin
    rw [hin.2] at hv
    cases hv
  refine ⟨fun h => key ?_, fun h => key ?_, fun h1 h2 => key ?_⟩
  · simp [insert_col_visible, h]
  · simp [insert_col_visible, h]
  · simp [insert_col_visible, h1, h2]

/-- Witness for C10: in `C10_COLS`, the non-primary-key sequence-default
column and the non-primary-key identity column are excluded, the
primary-key autoincrement column is excluded by the separate test, and the
plain column is kept. -/
theorem c10_witness :
    COL_SEQ ∉ build_insert_columns C10_COLS ∧
    COL_GEN ∉ build_insert_columns C10_COLS ∧
    COL_PKAUTO ∉ build_insert_columns C10_COLS ∧
    COL_SEQ.is_pk = false ∧ COL_GEN.is_pk = false ∧
    COL_PLAIN ∈ build_insert_columns C10_COLS := by
  refine ⟨?_, ?_, ?_, by decide, by decide, by decide⟩
  · exact (c10_generated_defaults_excluded C10_COLS COL_SEQ (by decide)).1 (by decide)
  · exact (c10_generated_defaults_excluded C10_COLS COL_GEN (by decide)).2.1 (by decide)
  · exact (c10_generated_defaults_excluded C10_COLS COL_PKAUTO (by decide)).2.2
      (by decide) (by decide)

end PGExplorer
